import Mathlib

/-!
Shallow embedding of the clice compilation pipeline (`Compiler.cpp`):
session construction (`createInstance` / `adjustInvocation`), preamble and
module reuse (`applyPreamble`), frontend action execution (`ExecuteAction`)
and the four build entry points (`buildAST`, `buildPCH`, `buildPCM`,
`codeCompleteAt`).

The clang toolchain itself is external to the repository, so its behaviour
is abstracted into an environment `Env`: the invocation produced from the
argument list, the success of target creation, the success of
`BeginSourceFile`, the optional error of `Execute`, and the pure
`clang::Lexer::ComputePreamble` boundary function.  Every option field the
source mutates is modelled as data, and option mutations are explicit
state-passing updates.
-/

namespace Clice

/-- Byte bounds of a reusable preamble: `clang::PreambleBounds`. -/
structure PreambleBounds where
  Size : Nat
  PreambleEndsAtStartOfLine : Bool
deriving DecidableEq, Repr, Inhabited

/-- Frontend action kinds used by the pipeline (`clang::frontend::ActionKind`).
The clang enumeration has many more members; a few unsupported ones are kept
so that the unsupported-kind branch of `ExecuteAction` is a live case. -/
inductive ActionKind where
  | ParseSyntaxOnly
  | GeneratePCH
  | GenerateReducedModuleInterface
  | GenerateModuleInterface
  | EmitObj
  | PluginAction
deriving DecidableEq, Repr, Inhabited

/-- Mirror of `clang::DisableValidationForModuleKind` (restricted to the
members the pipeline uses). -/
inductive DisableValidationForModuleKind where
  | None
  | PCH
  | All
deriving DecidableEq, Repr, Inhabited

/-- Mirror of `clang::CommentOptions` (the field the pipeline touches). -/
structure CommentOptions where
  ParseAllComments : Bool
deriving DecidableEq, Repr, Inhabited

/-- Mirror of `clang::LangOptions` (the fields the pipeline touches). -/
structure LangOptions where
  CommentOpts : CommentOptions
  RetainCommentsFromSystemHeaders : Bool
  CompilingPCH : Bool
deriving DecidableEq, Repr, Inhabited

/-- Mirror of `clang::FrontendOptions::CodeCompletionAt`
(`clang::ParsedSourceLocation`). -/
structure CodeCompletionPoint where
  Line : Nat
  Column : Nat
  FileName : String
deriving DecidableEq, Repr, Inhabited

/-- Mirror of `clang::FrontendOptions` (the fields the pipeline touches). -/
structure FrontendOptions where
  DisableFree : Bool
  OutputFile : String
  ProgramAction : ActionKind
  CodeCompletionAt : CodeCompletionPoint
  Inputs : List String
deriving DecidableEq, Repr, Inhabited

/-- Mirror of `clang::PreprocessorOptions` (the fields the pipeline touches).
`RemappedFiles` models `addRemappedFile`: a list of (path, buffer) pairs. -/
structure PreprocessorOptions where
  UsePredefines : Bool
  ImplicitPCHInclude : String
  PrecompiledPreambleBytes : Nat × Bool
  DisablePCHOrModuleValidation : DisableValidationForModuleKind
  GeneratePreamble : Bool
  RemappedFiles : List (String × String)
deriving DecidableEq, Repr, Inhabited

/-- Mirror of `clang::HeaderSearchOptions` (the field the pipeline touches).
`PrebuiltModuleFiles` is a string map, modelled as an association list whose
insertion follows `try_emplace` (keep the existing entry on key collision). -/
structure HeaderSearchOptions where
  PrebuiltModuleFiles : List (String × String)
deriving DecidableEq, Repr, Inhabited

/-- Mirror of `clang::CompilerInvocation` (the option groups the pipeline
touches). -/
structure CompilerInvocation where
  FrontendOpts : FrontendOptions
  LangOpts : LangOptions
  PreprocessorOpts : PreprocessorOptions
  HeaderSearchOpts : HeaderSearchOptions
deriving DecidableEq, Repr, Inhabited

/-- Mirror of `clang::CompilerInstance` as the pipeline observes it: its
invocation, whether `createDiagnostics` ran, and the code-completion
consumer installed by `setCodeCompletionConsumer` (identified by a name). -/
structure CompilerInstance where
  invocation : CompilerInvocation
  diagnosticsCreated : Bool
  codeCompletionConsumer : Option String
deriving DecidableEq, Repr, Inhabited

/-- Mirror of `clice::CompliationParams` (spelling kept from the source),
reconstructed from its uses in `Compiler.cpp`: unit path, designated main
path, source text, argument list, prior preamble path, prior preamble
bounds, module name to interface path pairs, and output path. -/
structure CompliationParams where
  path : String
  mainpath : String
  content : String
  args : List String
  pch : String
  bounds : PreambleBounds
  pcms : List (String × String)
  outpath : String
deriving DecidableEq, Repr, Inhabited

/-- Mirror of `clang::syntax::TokenBuffer` at the granularity the pipeline
uses: after construction the pipeline calls `indexExpandedTokens()`. -/
structure TokenBuffer where
  expandedTokensIndexed : Bool
deriving DecidableEq, Repr, Inhabited

/-- Mirror of `clice::ASTInfo`: the finished action (identified by its
kind), the session it ran in, and the optional lexical token index. -/
structure ASTInfo where
  action : ActionKind
  inst : CompilerInstance
  tokBuf : Option TokenBuffer
deriving DecidableEq, Repr, Inhabited

/-- Mirror of `clice::PCHInfo`: the `ASTInfo` plus output path, source
snapshot, originating main path and the preamble bounds used. -/
structure PCHInfo where
  info : ASTInfo
  outpath : String
  content : String
  mainpath : String
  bounds : PreambleBounds
deriving DecidableEq, Repr, Inhabited

/-- Mirror of `clice::PCMInfo`: the `ASTInfo` plus the output path. -/
structure PCMInfo where
  info : ASTInfo
  outpath : String
deriving DecidableEq, Repr, Inhabited

/-- Reason for a `std::terminate()` call in the source: the unsupported
action kind branch of `ExecuteAction`, or the unimplemented
`mainpath != path` branch of `buildPCH`. -/
inductive TermReason where
  | unsupportedActionKind
  | unimplementedMainPath
deriving DecidableEq, Repr, Inhabited

/-- Result of a build: `llvm::Expected` (success or an error message),
extended with `terminated` to make `std::terminate()` observable. -/
inductive BuildResult (α : Type) where
  | ok (value : α)
  | err (msg : String)
  | terminated (reason : TermReason)
deriving DecidableEq, Repr

/-- Observable steps of `ExecuteAction`, recorded in order. -/
inductive Event where
  | unsupportedKind
  | createTargetOk
  | createTargetFail
  | beginSourceFileOk
  | beginSourceFileFail
  | attachTokenCollector
  | executeOk
  | executeFail
  | indexExpandedTokens
deriving DecidableEq, Repr, Inhabited

/-- Abstraction of the clang toolchain, which is external to the repository:
the invocation `clang::createInvocation` derives from an argument list, the
outcomes of `createTarget`, `BeginSourceFile` and `Execute`, and the pure
text-to-bounds function `clang::Lexer::ComputePreamble`. -/
structure Env where
  invocationOf : List String → CompilerInvocation
  createTargetOk : Bool
  beginSourceFileOk : Bool
  executeErr : Option String
  computePreamble : String → PreambleBounds

/-- Source `adjustInvocation`: unconditionally sets `DisableFree := false`
(the session keeps ownership of its allocations and releases them only when
the session itself is destroyed, instead of abandoning them), and turns on
full documentation-comment parsing including comments from system
headers. -/
def adjustInvocation (invocation : CompilerInvocation) : CompilerInvocation :=
  { invocation with
    FrontendOpts := { invocation.FrontendOpts with DisableFree := false }
    LangOpts := { invocation.LangOpts with
      CommentOpts := { invocation.LangOpts.CommentOpts with ParseAllComments := true }
      RetainCommentsFromSystemHeaders := true } }

/-- Source `createInstance`: builds the invocation from the argument list,
creates diagnostics, and applies `adjustInvocation`. -/
def createInstance (env : Env) (args : List String) : CompilerInstance :=
  { invocation := adjustInvocation (env.invocationOf args)
    diagnosticsCreated := true
    codeCompletionConsumer := none }

/-- Semantics of `llvm::StringMap::try_emplace` on the association-list
model: insert only when the key is not already present. -/
def tryEmplace (files : List (String × String)) (name path : String) :
    List (String × String) :=
  if name ∈ files.map Prod.fst then files else files ++ [(name, path)]

/-- Source `applyPreamble`: when `bounds.Size != 0`, rewrite the
preprocessor options to reuse the prior preamble (no default predefines,
implicit PCH include, reusable byte extent, PCH validation disabled); then,
unconditionally, register every supplied module name/path pair as a
prebuilt module file. -/
def applyPreamble (inst : CompilerInstance) (params : CompliationParams) :
    CompilerInstance :=
  let inst :=
    if params.bounds.Size ≠ 0 then
      { inst with invocation := { inst.invocation with
          PreprocessorOpts := { inst.invocation.PreprocessorOpts with
            UsePredefines := false
            ImplicitPCHInclude := params.pch
            PrecompiledPreambleBytes :=
              (params.bounds.Size, params.bounds.PreambleEndsAtStartOfLine)
            DisablePCHOrModuleValidation := .PCH } } }
    else inst
  let files := params.pcms.foldl (fun files np => tryEmplace files np.1 np.2)
    inst.invocation.HeaderSearchOpts.PrebuiltModuleFiles
  { inst with invocation := { inst.invocation with
      HeaderSearchOpts := { PrebuiltModuleFiles := files } } }

/-- Source `addRemappedFile`: remap a path to an in-memory buffer. -/
def addRemappedFile (inst : CompilerInstance) (path text : String) :
    CompilerInstance :=
  { inst with invocation := { inst.invocation with
      PreprocessorOpts := { inst.invocation.PreprocessorOpts with
        RemappedFiles :=
          inst.invocation.PreprocessorOpts.RemappedFiles ++ [(path, text)] } } }

/-- The three action kinds for which `ExecuteAction` constructs an action
object; any other kind hits the `std::terminate()` branch. -/
def supportedActionKind : ActionKind → Bool
  | .ParseSyntaxOnly => true
  | .GeneratePCH => true
  | .GenerateReducedModuleInterface => true
  | _ => false

/-- Source `ExecuteAction`: construct the action for the kind (terminating
on an unsupported kind), create the target, begin the source file, and —
with the token collector attached first exactly when `collectPP` is true —
execute the action and package an `ASTInfo`.  In the source `collectPP`
has default value `true`; call sites that omit the argument pass `true`
here.  The second component is the trace of observable steps. -/
def ExecuteAction (env : Env) (inst : CompilerInstance) (kind : ActionKind)
    (collectPP : Bool) : BuildResult ASTInfo × List Event :=
  if supportedActionKind kind then
    if env.createTargetOk then
      if env.beginSourceFileOk then
        if collectPP then
          match env.executeErr with
          | some e =>
              (.err ("Failed to execute action, because " ++ e ++ " "),
               [.createTargetOk, .beginSourceFileOk, .attachTokenCollector,
                .executeFail])
          | none =>
              (.ok { action := kind, inst := inst
                     tokBuf := some { expandedTokensIndexed := true } },
               [.createTargetOk, .beginSourceFileOk, .attachTokenCollector,
                .executeOk, .indexExpandedTokens])
        else
          match env.executeErr with
          | some e =>
              (.err ("Failed to execute action, because " ++ e ++ " "),
               [.createTargetOk, .beginSourceFileOk, .executeFail])
          | none =>
              (.ok { action := kind, inst := inst, tokBuf := none },
               [.createTargetOk, .beginSourceFileOk, .executeOk])
      else
        (.err "Failed to begin source file",
         [.createTargetOk, .beginSourceFileFail])
    else
      (.err "Failed to create target", [.createTargetFail])
  else
    (.terminated .unsupportedActionKind, [.unsupportedKind])

/-- Source `buildAST`: create the session, remap the unit text, apply
preamble/module reuse, and run `ParseSyntaxOnly` with token collection
(the omitted `collectPP` defaults to `true`). -/
def buildAST (env : Env) (params : CompliationParams) : BuildResult ASTInfo :=
  let inst := createInstance env params.args
  let inst := addRemappedFile inst params.path params.content
  let inst := applyPreamble inst params
  (ExecuteAction env inst .ParseSyntaxOnly true).1

/-- Source `buildPCH`: compute the preamble bounds from the unit's own text
when `mainpath == path` (terminating otherwise — the FIXME branch), set the
PCH output options, remap the unit path to the text truncated to
`bounds.Size`, and run `GeneratePCH` (the omitted `collectPP` defaults to
`true`).  Note that `applyPreamble` is not called. -/
def buildPCH (env : Env) (params : CompliationParams) : BuildResult PCHInfo :=
  let inst := createInstance env params.args
  if params.mainpath = params.path then
    let bounds := env.computePreamble params.content
    let inst := { inst with invocation := { inst.invocation with
      FrontendOpts := { inst.invocation.FrontendOpts with
        OutputFile := params.outpath
        ProgramAction := .GeneratePCH }
      PreprocessorOpts := { inst.invocation.PreprocessorOpts with
        PrecompiledPreambleBytes := (0, false)
        GeneratePreamble := true }
      LangOpts := { inst.invocation.LangOpts with CompilingPCH := true } } }
    let inst := addRemappedFile inst params.path (params.content.take bounds.Size)
    match (ExecuteAction env inst .GeneratePCH true).1 with
    | .ok info =>
        .ok { info := info, outpath := params.outpath, content := params.content
              mainpath := params.mainpath, bounds := bounds }
    | .err e => .err e
    | .terminated r => .terminated r
  else
    .terminated .unimplementedMainPath

/-- Source `buildPCM`: create the session, set the module-interface output
options, remap the unit text, apply preamble/module reuse, and run
`GenerateReducedModuleInterface` (the omitted `collectPP` defaults to
`true`). -/
def buildPCM (env : Env) (params : CompliationParams) : BuildResult PCMInfo :=
  let inst := createInstance env params.args
  let inst := { inst with invocation := { inst.invocation with
    FrontendOpts := { inst.invocation.FrontendOpts with
      OutputFile := params.outpath
      ProgramAction := .GenerateReducedModuleInterface } } }
  let inst := addRemappedFile inst params.path params.content
  let inst := applyPreamble inst params
  match (ExecuteAction env inst .GenerateReducedModuleInterface true).1 with
  | .ok info => .ok { info := info, outpath := params.outpath }
  | .err e => .err e
  | .terminated r => .terminated r

/-- Source `codeCompleteAt`: create the session, install the completion
position and consumer, remap the unit text, apply preamble/module reuse,
and run `ParseSyntaxOnly` with `collectPP = false`. -/
def codeCompleteAt (env : Env) (params : CompliationParams)
    (line column : Nat) (file : String) (consumer : String) :
    BuildResult ASTInfo :=
  let inst := createInstance env params.args
  let inst := { inst with
    invocation := { inst.invocation with
      FrontendOpts := { inst.invocation.FrontendOpts with
        CodeCompletionAt := { Line := line, Column := column, FileName := file } } }
    codeCompletionConsumer := some consumer }
  let inst := addRemappedFile inst params.path params.content
  let inst := applyPreamble inst params
  (ExecuteAction env inst .ParseSyntaxOnly false).1

/-! Concrete fixtures used by witnesses and counterexamples. -/

/-- Concrete invocation with clang's defaults for the modelled fields. -/
def invocation0 : CompilerInvocation :=
  { FrontendOpts :=
      { DisableFree := false, OutputFile := "", ProgramAction := .ParseSyntaxOnly
        CodeCompletionAt := { Line := 0, Column := 0, FileName := "" }
        Inputs := ["main.cpp"] }
    LangOpts :=
      { CommentOpts := { ParseAllComments := false }
        RetainCommentsFromSystemHeaders := false, CompilingPCH := false }
    PreprocessorOpts :=
      { UsePredefines := true, ImplicitPCHInclude := ""
        PrecompiledPreambleBytes := (0, false)
        DisablePCHOrModuleValidation := .None, GeneratePreamble := false
        RemappedFiles := [] }
    HeaderSearchOpts := { PrebuiltModuleFiles := [] } }

/-- Environment in which every toolchain step succeeds. -/
def env0 : Env :=
  { invocationOf := fun _ => invocation0
    createTargetOk := true
    beginSourceFileOk := true
    executeErr := none
    computePreamble := fun _ => { Size := 2, PreambleEndsAtStartOfLine := true } }

/-- Environment in which target creation fails. -/
def envFailTarget : Env := { env0 with createTargetOk := false }

/-- Environment in which `BeginSourceFile` fails. -/
def envFailBegin : Env := { env0 with beginSourceFileOk := false }

/-- Environment in which `Execute` aborts with an underlying cause. -/
def envFailExec : Env := { env0 with executeErr := some "boom" }

/-- Concrete parameters whose unit path equals its designated main path. -/
def paramsMain : CompliationParams :=
  { path := "main.cpp", mainpath := "main.cpp", content := "abcdef"
    args := ["-std=c++20"], pch := "prior.pch"
    bounds := { Size := 0, PreambleEndsAtStartOfLine := false }
    pcms := [("m", "m.pcm")], outpath := "out.pch" }

/-- Concrete parameters whose unit path differs from its main path. -/
def paramsHeader : CompliationParams :=
  { paramsMain with path := "header.h", mainpath := "main.cpp" }

/-- Concrete parameters carrying nonzero reuse bounds. -/
def paramsReuse : CompliationParams :=
  { paramsMain with bounds := { Size := 5, PreambleEndsAtStartOfLine := true } }

/-- Concrete session used as the starting state of witnesses. -/
def inst0 : CompilerInstance := createInstance env0 paramsMain.args

/-- Token index of a successful tree-artifact result; `none` on failure. -/
def resultTokBufAST : BuildResult ASTInfo → Option TokenBuffer
  | .ok info => info.tokBuf
  | _ => none

/-- Token index of a successful preamble-artifact result; `none` on failure. -/
def resultTokBufPCH : BuildResult PCHInfo → Option TokenBuffer
  | .ok p => p.info.tokBuf
  | _ => none

/-- Token index of a successful module-artifact result; `none` on failure. -/
def resultTokBufPCM : BuildResult PCMInfo → Option TokenBuffer
  | .ok p => p.info.tokBuf
  | _ => none

/-- Whether a result is the `std::terminate()` of `ExecuteAction`'s
unsupported-action-kind branch. -/
def BuildResult.isUnsupportedKindTerm {α : Type} : BuildResult α → Bool
  | .terminated .unsupportedActionKind => true
  | _ => false

/-- The successful `ExecuteAction` result in the all-success environment,
used to exhibit satisfiable hypotheses. -/
def astResult0 : ASTInfo :=
  match (ExecuteAction env0 inst0 .ParseSyntaxOnly true).1 with
  | .ok info => info
  | _ => default

/-- The successful `buildPCH` result in the all-success environment, used to
exhibit satisfiable hypotheses. -/
def pchResult0 : PCHInfo :=
  match buildPCH env0 paramsMain with
  | .ok p => p
  | _ => default

/-- Keys already present survive a `tryEmplace`. -/
theorem mem_map_fst_tryEmplace_of_mem (files : List (String × String))
    (name path m : String) (h : m ∈ files.map Prod.fst) :
    m ∈ (tryEmplace files name path).map Prod.fst := by
  unfold tryEmplace; split
  · exact h
  · simp only [List.map_append, List.map_cons, List.map_nil, List.mem_append]
    exact Or.inl h

/-- After `tryEmplace files name path`, `name` is a key. -/
theorem mem_map_fst_tryEmplace_self (files : List (String × String))
    (name path : String) :
    name ∈ (tryEmplace files name path).map Prod.fst := by
  unfold tryEmplace; split
  · assumption
  · simp

/-- Keys of the accumulator survive a whole fold of `tryEmplace`. -/
theorem mem_map_fst_foldl_tryEmplace_mono (l : List (String × String))
    (init : List (String × String)) (m : String) (h : m ∈ init.map Prod.fst) :
    m ∈ (l.foldl (fun files np => tryEmplace files np.1 np.2) init).map Prod.fst := by
  induction l generalizing init with
  | nil => exact h
  | cons hd tl ih => exact ih _ (mem_map_fst_tryEmplace_of_mem _ _ _ _ h)

/-- Every name supplied to a fold of `tryEmplace` ends up as a key. -/
theorem mem_map_fst_foldl_tryEmplace (l init : List (String × String))
    (np : String × String) (h : np ∈ l) :
    np.1 ∈ (l.foldl (fun files np => tryEmplace files np.1 np.2) init).map Prod.fst := by
  revert h
  induction l generalizing init with
  | nil => intro h; cases h
  | cons hd tl ih =>
    intro h
    rcases List.mem_cons.mp h with heq | hmem
    · subst heq
      exact mem_map_fst_foldl_tryEmplace_mono tl _ _
        (mem_map_fst_tryEmplace_self init np.1 np.2)
    · exact ih _ hmem

/-- Field characterization of a successful `buildPCH`: bounds are the
freshly computed ones, the PCH output wiring is set, the fed text is the
truncated remap, and no reuse rewriting touched the session. -/
theorem buildPCH_ok_fields (env : Env) (params : CompliationParams)
    (p : PCHInfo) (hp : buildPCH env params = .ok p) :
    p.bounds = env.computePreamble params.content ∧
    p.info.inst.invocation.FrontendOpts.OutputFile = params.outpath ∧
    p.info.inst.invocation.FrontendOpts.ProgramAction = .GeneratePCH ∧
    p.info.inst.invocation.PreprocessorOpts.GeneratePreamble = true ∧
    p.info.inst.invocation.LangOpts.CompilingPCH = true ∧
    p.info.inst.invocation.PreprocessorOpts.RemappedFiles =
      (createInstance env params.args).invocation.PreprocessorOpts.RemappedFiles ++
        [(params.path, params.content.take (env.computePreamble params.content).Size)] ∧
    p.info.inst.invocation.PreprocessorOpts.UsePredefines =
      (createInstance env params.args).invocation.PreprocessorOpts.UsePredefines ∧
    p.info.inst.invocation.PreprocessorOpts.ImplicitPCHInclude =
      (createInstance env params.args).invocation.PreprocessorOpts.ImplicitPCHInclude ∧
    p.info.inst.invocation.PreprocessorOpts.DisablePCHOrModuleValidation =
      (createInstance env params.args).invocation.PreprocessorOpts.DisablePCHOrModuleValidation ∧
    p.info.inst.invocation.HeaderSearchOpts =
      (createInstance env params.args).invocation.HeaderSearchOpts := by
  by_cases hm : params.mainpath = params.path
  · cases h1 : env.createTargetOk <;> cases h2 : env.beginSourceFileOk <;>
      rcases h3 : env.executeErr with _ | e <;>
      simp [buildPCH, ExecuteAction, supportedActionKind, hm, h1, h2, h3] at hp
    subst hp
    simp [createInstance, addRemappedFile]
  · simp [buildPCH, hm] at hp

/-! Claims. -/

/-- C1 (counterexample): the claim says `buildPCH` returns an artifact whose
token index is null, but on a concrete successful build the artifact's token
index is populated — `ExecuteAction`'s `collectPP` parameter defaults to
`true` and `buildPCH` omits it. -/
theorem C1_counterexample :
    resultTokBufPCH (buildPCH env0 paramsMain) =
      some { expandedTokensIndexed := true } := by
  rfl

/-- C1 (amended): the lexical token index is populated on every successful
`buildAST`, `buildPCH` and `buildPCM` (all three omit `collectPP`, which
defaults to `true`), and is null exactly for `codeCompleteAt`, which passes
`collectPP = false`. -/
theorem C1_tokenIndex (env : Env) (params : CompliationParams)
    (line column : Nat) (file consumer : String) :
    resultTokBufAST (buildAST env params) =
      (if env.createTargetOk = true ∧ env.beginSourceFileOk = true ∧
          env.executeErr = none
       then some { expandedTokensIndexed := true } else none) ∧
    resultTokBufPCH (buildPCH env params) =
      (if params.mainpath = params.path ∧ env.createTargetOk = true ∧
          env.beginSourceFileOk = true ∧ env.executeErr = none
       then some { expandedTokensIndexed := true } else none) ∧
    resultTokBufPCM (buildPCM env params) =
      (if env.createTargetOk = true ∧ env.beginSourceFileOk = true ∧
          env.executeErr = none
       then some { expandedTokensIndexed := true } else none) ∧
    resultTokBufAST (codeCompleteAt env params line column file consumer) = none := by
  by_cases hm : params.mainpath = params.path <;>
    cases h1 : env.createTargetOk <;> cases h2 : env.beginSourceFileOk <;>
    rcases h3 : env.executeErr with _ | e <;>
    simp [buildAST, buildPCH, buildPCM, codeCompleteAt, ExecuteAction,
      supportedActionKind, resultTokBufAST, resultTokBufPCH, resultTokBufPCM,
      h1, h2, h3, hm]

/-- C2: with a unit path different from the designated main path, `buildPCH`
hits the FIXME branch and calls `std::terminate()` — a process abort, not a
reported unsupported-request failure — though it indeed never proceeds with
a guessed boundary. -/
theorem C2_terminates :
    buildPCH env0 paramsHeader = .terminated .unimplementedMainPath := by
  rfl

/-- C3: for every argument list (and indeed for every invocation), session
construction unconditionally applies the fixed policy: `DisableFree = false`
(the session keeps ownership of parsed state for its whole lifetime instead
of abandoning it), and full documentation comments are parsed and retained
including from system/dependency headers. -/
theorem C3_fixedPolicy (env : Env) (args : List String)
    (invocation : CompilerInvocation) :
    ((adjustInvocation invocation).FrontendOpts.DisableFree = false ∧
      (adjustInvocation invocation).LangOpts.CommentOpts.ParseAllComments = true ∧
      (adjustInvocation invocation).LangOpts.RetainCommentsFromSystemHeaders = true) ∧
    ((createInstance env args).invocation.FrontendOpts.DisableFree = false ∧
      (createInstance env args).invocation.LangOpts.CommentOpts.ParseAllComments = true ∧
      (createInstance env args).invocation.LangOpts.RetainCommentsFromSystemHeaders = true) :=
  ⟨⟨rfl, rfl, rfl⟩, ⟨rfl, rfl, rfl⟩⟩

/-- C10: the unsupported-action-kind abort branch of `ExecuteAction` is
unreachable from the four public entry points: each passes one of the three
supported kinds, so no caller-reachable input produces that abort (the
distinct `buildPCH` main-path abort is a different branch). -/
theorem C10_abortUnreachable (env : Env) (params : CompliationParams)
    (line column : Nat) (file consumer : String) :
    (buildAST env params).isUnsupportedKindTerm = false ∧
    (buildPCH env params).isUnsupportedKindTerm = false ∧
    (buildPCM env params).isUnsupportedKindTerm = false ∧
    (codeCompleteAt env params line column file consumer).isUnsupportedKindTerm = false := by
  by_cases hm : params.mainpath = params.path <;>
    cases h1 : env.createTargetOk <;> cases h2 : env.beginSourceFileOk <;>
    rcases h3 : env.executeErr with _ | e <;>
    simp [buildAST, buildPCH, buildPCM, codeCompleteAt, ExecuteAction,
      supportedActionKind, BuildResult.isUnsupportedKindTerm, h1, h2, h3, hm]

/-- C4: the two-branch contract of `applyPreamble`.  With `bounds.Size = 0`
the preprocessing options are left unchanged (normal cold pass); with
`bounds.Size ≠ 0` default-predefine injection is disabled, the prior
preamble is attached as the implicit precompiled include, the reusable byte
extent is set to the supplied bounds, and PCH validation is disabled. -/
theorem C4_applyPreambleBranches (inst : CompilerInstance)
    (params : CompliationParams) :
    (params.bounds.Size = 0 →
      (applyPreamble inst params).invocation.PreprocessorOpts =
        inst.invocation.PreprocessorOpts) ∧
    (params.bounds.Size ≠ 0 →
      (applyPreamble inst params).invocation.PreprocessorOpts.UsePredefines = false ∧
      (applyPreamble inst params).invocation.PreprocessorOpts.ImplicitPCHInclude =
        params.pch ∧
      (applyPreamble inst params).invocation.PreprocessorOpts.PrecompiledPreambleBytes =
        (params.bounds.Size, params.bounds.PreambleEndsAtStartOfLine) ∧
      (applyPreamble inst params).invocation.PreprocessorOpts.DisablePCHOrModuleValidation =
        DisableValidationForModuleKind.PCH) := by
  constructor
  · intro h; simp [applyPreamble, h]
  · intro h; simp [applyPreamble, h]

/-- C4 (witness): both branches are exercised at concrete inputs. -/
theorem C4_witness :
    (applyPreamble inst0 paramsMain).invocation.PreprocessorOpts =
      inst0.invocation.PreprocessorOpts ∧
    (applyPreamble inst0 paramsReuse).invocation.PreprocessorOpts.UsePredefines = false :=
  ⟨(C4_applyPreambleBranches inst0 paramsMain).1 rfl,
   ((C4_applyPreambleBranches inst0 paramsReuse).2 (by decide)).1⟩

/-- C5: an artifact is returned only on full success.  A failed target
creation, a failed `BeginSourceFile`, or an aborted `Execute` yields a
reported failure with a message (carrying the underlying cause for
execution failures) and no partial artifact; this lifts to `buildPCH`. -/
theorem C5_noPartialArtifact (env : Env) (inst : CompilerInstance)
    (kind : ActionKind) (collectPP : Bool) (params : CompliationParams) :
    (∀ info, (ExecuteAction env inst kind collectPP).1 = .ok info →
      env.createTargetOk = true ∧ env.beginSourceFileOk = true ∧
        env.executeErr = none) ∧
    (supportedActionKind kind = true → env.createTargetOk = false →
      (ExecuteAction env inst kind collectPP).1 = .err "Failed to create target") ∧
    (supportedActionKind kind = true → env.createTargetOk = true →
      env.beginSourceFileOk = false →
      (ExecuteAction env inst kind collectPP).1 = .err "Failed to begin source file") ∧
    (∀ e, supportedActionKind kind = true → env.createTargetOk = true →
      env.beginSourceFileOk = true → env.executeErr = some e →
      (ExecuteAction env inst kind collectPP).1 =
        .err ("Failed to execute action, because " ++ e ++ " ")) ∧
    (∀ p, buildPCH env params = .ok p →
      env.createTargetOk = true ∧ env.beginSourceFileOk = true ∧
        env.executeErr = none) := by
  by_cases hm : params.mainpath = params.path <;> cases kind <;>
    cases h1 : env.createTargetOk <;> cases h2 : env.beginSourceFileOk <;>
    rcases h3 : env.executeErr with _ | e0 <;> cases collectPP <;>
    simp [ExecuteAction, buildPCH, supportedActionKind, hm, h1, h2, h3]

/-- C5 (witness): each failure category and the success case are exercised
at concrete inputs. -/
theorem C5_witness :
    (ExecuteAction envFailTarget inst0 .ParseSyntaxOnly true).1 =
      .err "Failed to create target" ∧
    (ExecuteAction envFailBegin inst0 .ParseSyntaxOnly true).1 =
      .err "Failed to begin source file" ∧
    (ExecuteAction envFailExec inst0 .GeneratePCH true).1 =
      .err ("Failed to execute action, because " ++ "boom" ++ " ") ∧
    (env0.createTargetOk = true ∧ env0.beginSourceFileOk = true ∧
      env0.executeErr = none) :=
  ⟨(C5_noPartialArtifact envFailTarget inst0 .ParseSyntaxOnly true paramsMain).2.1
      rfl rfl,
   (C5_noPartialArtifact envFailBegin inst0 .ParseSyntaxOnly true paramsMain).2.2.1
      rfl rfl rfl,
   (C5_noPartialArtifact envFailExec inst0 .GeneratePCH true paramsMain).2.2.2.1
      "boom" rfl rfl rfl rfl,
   (C5_noPartialArtifact env0 inst0 .ParseSyntaxOnly true paramsMain).1
      astResult0 rfl⟩

/-- C6: whenever the token collector is attached, target creation and
`BeginSourceFile` have already succeeded, the trace is exactly
begin-then-attach (so the collector observes the live preprocessor, never a
stale pre-begin one), and a successful begin event strictly precedes the
attach event. -/
theorem C6_collectorAfterBegin (env : Env) (inst : CompilerInstance)
    (kind : ActionKind) (collectPP : Bool)
    (h : Event.attachTokenCollector ∈ (ExecuteAction env inst kind collectPP).2) :
    env.createTargetOk = true ∧ env.beginSourceFileOk = true ∧ collectPP = true ∧
    ((ExecuteAction env inst kind collectPP).2 =
        [.createTargetOk, .beginSourceFileOk, .attachTokenCollector, .executeFail] ∨
      (ExecuteAction env inst kind collectPP).2 =
        [.createTargetOk, .beginSourceFileOk, .attachTokenCollector, .executeOk,
         .indexExpandedTokens]) ∧
    (∃ i j : Nat, i < j ∧
      (ExecuteAction env inst kind collectPP).2[i]? = some .beginSourceFileOk ∧
      (ExecuteAction env inst kind collectPP).2[j]? = some .attachTokenCollector) := by
  have key : env.createTargetOk = true ∧ env.beginSourceFileOk = true ∧
      collectPP = true ∧
      ((ExecuteAction env inst kind collectPP).2 =
          [.createTargetOk, .beginSourceFileOk, .attachTokenCollector, .executeFail] ∨
        (ExecuteAction env inst kind collectPP).2 =
          [.createTargetOk, .beginSourceFileOk, .attachTokenCollector, .executeOk,
           .indexExpandedTokens]) := by
    cases kind <;> cases h1 : env.createTargetOk <;>
      cases h2 : env.beginSourceFileOk <;>
      rcases h3 : env.executeErr with _ | e <;> cases collectPP <;>
      simp [ExecuteAction, supportedActionKind, h1, h2, h3] at h ⊢
  obtain ⟨k1, k2, k3, k4⟩ := key
  refine ⟨k1, k2, k3, k4, ?_⟩
  rcases k4 with h4 | h4 <;> rw [h4] <;> exact ⟨1, 2, by decide, rfl, rfl⟩

/-- C6 (witness): in the all-success environment, with token collection
requested, the collector is attached. -/
theorem C6_witness :
    Event.attachTokenCollector ∈ (ExecuteAction env0 inst0 .ParseSyntaxOnly true).2 ∧
    env0.beginSourceFileOk = true :=
  ⟨by decide,
   (C6_collectorAfterBegin env0 inst0 .ParseSyntaxOnly true (by decide)).2.1⟩

/-- C7: `buildPCH` ignores the supplied reuse parameters (its result does
not depend on `pch`, `bounds` or `pcms`); on success the artifact's session
carries the output path and PCH-generation flags, the fed text is exactly
the first `bounds.Size` units of the source content for the freshly
computed bounds, and no reuse rewriting was applied to the session. -/
theorem C7_pchWiring (env : Env) (params : CompliationParams) :
    (∀ pchPrior priorBounds priorPcms,
      buildPCH env
        { params with pch := pchPrior, bounds := priorBounds, pcms := priorPcms } =
      buildPCH env params) ∧
    (∀ p, buildPCH env params = .ok p →
      p.bounds = env.computePreamble params.content ∧
      p.info.inst.invocation.FrontendOpts.OutputFile = params.outpath ∧
      p.info.inst.invocation.FrontendOpts.ProgramAction = .GeneratePCH ∧
      p.info.inst.invocation.PreprocessorOpts.GeneratePreamble = true ∧
      p.info.inst.invocation.LangOpts.CompilingPCH = true ∧
      p.info.inst.invocation.PreprocessorOpts.RemappedFiles =
        (createInstance env params.args).invocation.PreprocessorOpts.RemappedFiles ++
          [(params.path, params.content.take (env.computePreamble params.content).Size)] ∧
      p.info.inst.invocation.PreprocessorOpts.UsePredefines =
        (createInstance env params.args).invocation.PreprocessorOpts.UsePredefines ∧
      p.info.inst.invocation.PreprocessorOpts.ImplicitPCHInclude =
        (createInstance env params.args).invocation.PreprocessorOpts.ImplicitPCHInclude ∧
      p.info.inst.invocation.PreprocessorOpts.DisablePCHOrModuleValidation =
        (createInstance env params.args).invocation.PreprocessorOpts.DisablePCHOrModuleValidation ∧
      p.info.inst.invocation.HeaderSearchOpts =
        (createInstance env params.args).invocation.HeaderSearchOpts) := by
  constructor
  · intro a b c
    obtain ⟨p1, p2, p3, p4, p5, p6, p7, p8⟩ := params
    rfl
  · exact fun p hp => buildPCH_ok_fields env params p hp

/-- C7 (witness): a concrete successful preamble build, with the computed
bounds recorded and the output path wired. -/
theorem C7_witness :
    buildPCH env0 paramsMain = .ok pchResult0 ∧
    pchResult0.bounds = env0.computePreamble paramsMain.content ∧
    pchResult0.info.inst.invocation.FrontendOpts.OutputFile = paramsMain.outpath := by
  have h : buildPCH env0 paramsMain = .ok pchResult0 := by rfl
  have hc := (C7_pchWiring env0 paramsMain).2 pchResult0 h
  exact ⟨h, hc.1, hc.2.1⟩

/-- C8: preamble boundary detection is deterministic and idempotent — two
builds of identical parameters record identical bounds, equal to the
boundary function of the text (in this embedding boundary detection is a
pure function of the text, so determinism is by construction). -/
theorem C8_boundsIdempotent (env : Env) (params : CompliationParams)
    (p q : PCHInfo) (hp : buildPCH env params = .ok p)
    (hq : buildPCH env params = .ok q) :
    p.bounds = q.bounds ∧ p.bounds = env.computePreamble params.content := by
  refine ⟨?_, (buildPCH_ok_fields env params p hp).1⟩
  rw [hp] at hq
  injection hq with h
  rw [h]

/-- C8 (witness): the concrete successful preamble build records the
computed bounds. -/
theorem C8_witness :
    pchResult0.bounds = env0.computePreamble paramsMain.content :=
  (C8_boundsIdempotent env0 paramsMain pchResult0 pchResult0 rfl rfl).2

/-- C9: `applyPreamble` registers the supplied module files independently of
the bounds — the resulting header-search state is the same as with zero
bounds — and every supplied module name ends up as a prebuilt-module-file
key, so the cold-preprocessing branch still resolves imports against the
supplied map. -/
theorem C9_pcmsUnconditional (inst : CompilerInstance)
    (params : CompliationParams) :
    ((applyPreamble inst params).invocation.HeaderSearchOpts =
      (applyPreamble inst { params with
        bounds := { Size := 0, PreambleEndsAtStartOfLine := false } }).invocation.HeaderSearchOpts) ∧
    (∀ np, np ∈ params.pcms →
      np.1 ∈ ((applyPreamble inst params).invocation.HeaderSearchOpts.PrebuiltModuleFiles).map
        Prod.fst) := by
  constructor
  · by_cases h : params.bounds.Size = 0 <;> simp [applyPreamble, h]
  · intro np hnp
    have hfold : (applyPreamble inst params).invocation.HeaderSearchOpts.PrebuiltModuleFiles =
        params.pcms.foldl (fun files q => tryEmplace files q.1 q.2)
          inst.invocation.HeaderSearchOpts.PrebuiltModuleFiles := by
      by_cases h : params.bounds.Size = 0 <;> simp [applyPreamble, h]
    rw [hfold]
    exact mem_map_fst_foldl_tryEmplace _ _ _ hnp

/-- C9 (witness): with zero bounds (no preamble reused), the supplied
module name is still registered. -/
theorem C9_witness :
    ("m", "m.pcm").1 ∈
      ((applyPreamble inst0 paramsMain).invocation.HeaderSearchOpts.PrebuiltModuleFiles).map
        Prod.fst :=
  (C9_pcmsUnconditional inst0 paramsMain).2 ("m", "m.pcm") (by decide)

end Clice
